import Mathlib

/-!
Verification of the multi-species cellular-automaton core of
chucks-game-of-darwinism.

The embedding follows the modular engine (`SimulationEngine` in
src/unnamed/part_001 together with `GridModel` in
src/javascript/classes/Renderer.js), which is the revised core the spec
describes; the legacy monolith src/script.js differs only in the
effective-pressure formula (flat `+0.5*Y` bonus) and the disease-decay
comparison, and is modelled here by `flatA2`/`flatB2` where a claim needs
the comparison.

Numeric conventions:
* Cell states and age counters live in `Uint8Array`s, so a buffer cell
  holds a value in `[0, 256)`; every age written by the engine is reduced
  `% 256` at the write site, mirroring the typed-array store.
* The JS effective pressures `SA = A + 0.5*Y*A` and `SB = B + 0.5*Y*B`
  are IEEE doubles, but with `A, B, Y ≤ 8` every value is an exactly
  representable multiple of `1/2`, as are all differences taken of them,
  so comparisons against the integer thresholds are exact.  We therefore
  encode pressures scaled by 2 (`effA2 = 2*A + Y*A`) and scale the
  thresholds in the comparisons (`SA ≥ birth  ↔  effA2 ≥ 2*birth`,
  `SA - SB ≥ marg  ↔  effA2 - effB2 ≥ 2*marg`), which is an exact
  integer rendering of the float comparisons.
* JS `%` is truncated remainder; it is modelled by `Int.tmod`.
* Rule parameters come from `parseInt` on slider values and are modelled
  as unconstrained integers.
-/

namespace Darwin

/-- State encoding from src/javascript/constants/state.js
(`0=Empty, 1=A, 2=B, 3=Diseased, 4=Contested`). -/
def EMPTY : Nat := 0

def SPECIES_A : Nat := 1

def SPECIES_B : Nat := 2

def DISEASED : Nat := 3

def CONTESTED : Nat := 4

/-- Integer rule-parameter snapshot produced by `RuleParameters.getValues`
(the two densities are only used by `randomize`, outside the engine). -/
structure Params where
  birth : Int
  smin : Int
  smax : Int
  over : Int
  cmin : Int
  marg : Int
  istr : Int
  iweak : Int
  tau : Int
  ydec : Int
deriving DecidableEq

/-- The `GridModel` buffers: current states, next buffer and the two
per-cell age arrays, each a flat row-major `Uint8Array` of size
`columns * rows`.  Buffers are modelled as total functions on flat
indices; the engine only reads and writes indices `< columns * rows`. -/
@[ext]
structure Grid where
  columns : Nat
  rows : Nat
  grid : Nat → Nat
  next : Nat → Nat
  gAge : Nat → Nat
  yAge : Nat → Nat

/-- Pointwise store into a buffer, modelling `buf[i] = v`. -/
def store (f : Nat → Nat) (i v : Nat) : Nat → Nat :=
  fun j => if j = i then v else f j

/-- GridModel.idx: `(y * this.columns + x) | 0`. -/
def Grid.idx (g : Grid) (x y : Nat) : Nat :=
  y * g.columns + x

/-- GridModel.wrap: `x %= n; return x < 0 ? x + n : x;` with JS `%`
(truncated remainder, `Int.tmod`). -/
def wrap (x n : Int) : Int :=
  let r := Int.tmod x n
  if r < 0 then r + n else r

/-- Neighbor counts returned by `GridModel.getNeighborCounts`. -/
structure Counts where
  A : Nat
  B : Nat
  G : Nat
  Y : Nat
deriving DecidableEq

/-- One `switch` arm of the neighbor scan: bump the counter matching the
neighbor's state (Empty and any other value uncounted). -/
def bump (c : Counts) (state : Nat) : Counts :=
  if state = SPECIES_A then { c with A := c.A + 1 }
  else if state = SPECIES_B then { c with B := c.B + 1 }
  else if state = DISEASED then { c with G := c.G + 1 }
  else if state = CONTESTED then { c with Y := c.Y + 1 }
  else c

/-- The 8 Moore offsets in the loop order of `getNeighborCounts`
(`dy` outer from -1 to 1, `dx` inner, skipping `(0,0)`). -/
def offsets : List (Int × Int) :=
  [(-1, -1), (0, -1), (1, -1), (-1, 0), (1, 0), (-1, 1), (0, 1), (1, 1)]

/-- GridModel.getNeighborCounts: scan the 8 toroidally wrapped Moore
neighbors of `(x, y)` in the current buffer. -/
def getNeighborCounts (g : Grid) (x y : Nat) : Counts :=
  offsets.foldl
    (fun cnt d =>
      let nx := wrap ((x : Int) + d.1) (g.columns : Int)
      let ny := wrap ((y : Int) + d.2) (g.rows : Int)
      bump cnt (g.grid (ny.toNat * g.columns + nx.toNat)))
    ⟨0, 0, 0, 0⟩

/-- Twice the effective Species-A pressure:
`SA = neighbors.A + 0.5 * neighbors.Y * neighbors.A` scaled by 2
(exact, see the header comment). -/
def effA2 (n : Counts) : Nat :=
  2 * n.A + n.Y * n.A

/-- Twice the effective Species-B pressure:
`SB = neighbors.B + 0.5 * neighbors.Y * neighbors.B` scaled by 2. -/
def effB2 (n : Counts) : Nat :=
  2 * n.B + n.Y * n.B

/-- Twice the legacy flat-bonus Species-A pressure of src/script.js
(`SA = neighbors.A + 0.5 * neighbors.Y`), for comparison with `effA2`. -/
def flatA2 (n : Counts) : Nat :=
  2 * n.A + n.Y

/-- Twice the legacy flat-bonus Species-B pressure of src/script.js. -/
def flatB2 (n : Counts) : Nat :=
  2 * n.B + n.Y

/-- SimulationEngine.SPECIES_ACTIVE. -/
def SPECIES_ACTIVE : List Nat :=
  [SPECIES_A, SPECIES_B, CONTESTED]

/-- SimulationEngine.isWeakCell. -/
def isWeakCell (state : Nat) (n : Counts) : Bool :=
  if state = SPECIES_A then decide (n.A ≤ 1)
  else if state = SPECIES_B then decide (n.B ≤ 1)
  else if state = CONTESTED then decide (min n.A n.B ≤ 1)
  else false

/-- SimulationEngine.checkInfection: strong infection at `G ≥ istr`, weak
infection at `iweak > 0 ∧ G ≥ iweak` for weak cells; non-active states are
immune. -/
def checkInfection (state : Nat) (n : Counts) (p : Params) : Bool :=
  if state ∈ SPECIES_ACTIVE then
    decide (p.istr ≤ (n.G : Int)) ||
      (decide (0 < p.iweak) && decide (p.iweak ≤ (n.G : Int)) && isWeakCell state n)
  else false

/-- SimulationEngine.ageDiseasedCell: `isStale := gAge[i] >= tau`;
stale cells clear to Empty with age 0, others stay Diseased with the age
incremented (stored into the `Uint8Array`, hence `% 256`). -/
def ageDiseasedCell (g : Grid) (i : Nat) (p : Params) : Grid :=
  if p.tau ≤ (g.gAge i : Int) then
    { g with next := store g.next i EMPTY, gAge := store g.gAge i 0 }
  else
    { g with next := store g.next i DISEASED,
             gAge := store g.gAge i ((g.gAge i + 1) % 256) }

/-- SimulationEngine.handleEmptyCell, with pressures scaled by 2. -/
def handleEmptyCell (g : Grid) (i SA2 SB2 : Nat) (p : Params) : Grid :=
  if 2 * p.birth ≤ (SA2 : Int) ∧ 2 * p.birth ≤ (SB2 : Int) then
    { g with next := store g.next i CONTESTED, yAge := store g.yAge i 0 }
  else if 2 * p.birth ≤ (SA2 : Int) ∧ (SB2 : Int) < 2 * p.birth then
    { g with next := store g.next i SPECIES_A }
  else if 2 * p.birth ≤ (SB2 : Int) ∧ (SA2 : Int) < 2 * p.birth then
    { g with next := store g.next i SPECIES_B }
  else
    { g with next := store g.next i EMPTY }

/-- SimulationEngine.handleSpeciesCell: `contested` pre-empts `survives`;
failing both means death. -/
def handleSpeciesCell (g : Grid) (i state : Nat) (n : Counts) (SA2 SB2 : Nat)
    (p : Params) : Grid :=
  if 2 * p.cmin ≤ ((if state = SPECIES_A then SB2 else SA2) : Int) ∧
      2 * p.marg ≤ ((if state = SPECIES_A then SB2 else SA2) : Int) -
        ((if state = SPECIES_A then SA2 else SB2) : Int) then
    { g with next := store g.next i CONTESTED, yAge := store g.yAge i 0 }
  else if p.smin ≤ ((if state = SPECIES_A then n.A else n.B) : Int) ∧
      ((if state = SPECIES_A then n.A else n.B) : Int) ≤ p.smax ∧
      ((if state = SPECIES_A then n.A else n.B) : Int) < p.over ∧
      ((if state = SPECIES_A then n.B else n.A) : Int) < p.over then
    { g with next := store g.next i state }
  else
    { g with next := store g.next i EMPTY }

/-- SimulationEngine.handleContestedCell: species claim, else decay on
isolation or age, else remain contested one generation older. -/
def handleContestedCell (g : Grid) (i : Nat) (n : Counts) (SA2 SB2 : Nat)
    (p : Params) : Grid :=
  if 2 * p.cmin ≤ (SA2 : Int) ∧ 2 * p.marg ≤ (SA2 : Int) - (SB2 : Int) then
    { g with next := store g.next i SPECIES_A }
  else if 2 * p.cmin ≤ (SB2 : Int) ∧ 2 * p.marg ≤ (SB2 : Int) - (SA2 : Int) then
    { g with next := store g.next i SPECIES_B }
  else if n.A + n.B < 2 ∨ p.ydec ≤ (g.yAge i : Int) + 1 then
    { g with next := store g.next i EMPTY, yAge := store g.yAge i 0 }
  else
    { g with next := store g.next i CONTESTED,
             yAge := store g.yAge i ((g.yAge i + 1) % 256) }

/-- SimulationEngine.updateCell: the five-way priority dispatch. -/
def updateCell (g : Grid) (column row : Nat) (p : Params) : Grid :=
  let i := g.idx column row
  let state := g.grid i
  let n := getNeighborCounts g column row
  if checkInfection state n p then
    { g with next := store g.next i DISEASED, gAge := store g.gAge i 0 }
  else if state = DISEASED then
    ageDiseasedCell g i p
  else
    let SA2 := effA2 n
    let SB2 := effB2 n
    if state = EMPTY then handleEmptyCell g i SA2 SB2 p
    else if state = SPECIES_A ∨ state = SPECIES_B then
      handleSpeciesCell g i state n SA2 SB2 p
    else if state = CONTESTED then handleContestedCell g i n SA2 SB2 p
    else { g with next := store g.next i EMPTY }

/-- Iteration order of the nested loops in `SimulationEngine.step`
(outer loop over rows, inner over columns, visiting `(x, y)`). -/
def cellOrder (c r : Nat) : List (Nat × Nat) :=
  (List.range r).flatMap fun y => (List.range c).map fun x => (x, y)

/-- The per-cell pass of `SimulationEngine.step` before the buffer swap. -/
def stepPass (g : Grid) (p : Params) : Grid :=
  (cellOrder g.columns g.rows).foldl (fun h q => updateCell h q.1 q.2 p) g

/-- SimulationEngine.step: full pass over every cell, then the O(1)
current/next buffer swap. -/
def step (g : Grid) (p : Params) : Grid :=
  let h := stepPass g p
  { h with grid := h.next, next := h.grid }

/-- Iterated generations. -/
def stepN (g : Grid) (p : Params) : Nat → Grid
  | 0 => g
  | k + 1 => step (stepN g p k) p

/-- Pure per-cell transition extracted from `updateCell`: given the cell's
current state, its neighbor counts and its own two ages, returns
(next state, new disease age, new contested age). -/
def localNext (state : Nat) (n : Counts) (ga ya : Nat) (p : Params) :
    Nat × Nat × Nat :=
  if checkInfection state n p then (DISEASED, 0, ya)
  else if state = DISEASED then
    if p.tau ≤ (ga : Int) then (EMPTY, 0, ya)
    else (DISEASED, (ga + 1) % 256, ya)
  else if state = EMPTY then
    if 2 * p.birth ≤ (effA2 n : Int) ∧ 2 * p.birth ≤ (effB2 n : Int) then
      (CONTESTED, ga, 0)
    else if 2 * p.birth ≤ (effA2 n : Int) ∧ (effB2 n : Int) < 2 * p.birth then
      (SPECIES_A, ga, ya)
    else if 2 * p.birth ≤ (effB2 n : Int) ∧ (effA2 n : Int) < 2 * p.birth then
      (SPECIES_B, ga, ya)
    else (EMPTY, ga, ya)
  else if state = SPECIES_A ∨ state = SPECIES_B then
    if 2 * p.cmin ≤ ((if state = SPECIES_A then effB2 n else effA2 n) : Int) ∧
        2 * p.marg ≤ ((if state = SPECIES_A then effB2 n else effA2 n) : Int) -
          ((if state = SPECIES_A then effA2 n else effB2 n) : Int) then
      (CONTESTED, ga, 0)
    else if p.smin ≤ ((if state = SPECIES_A then n.A else n.B) : Int) ∧
        ((if state = SPECIES_A then n.A else n.B) : Int) ≤ p.smax ∧
        ((if state = SPECIES_A then n.A else n.B) : Int) < p.over ∧
        ((if state = SPECIES_A then n.B else n.A) : Int) < p.over then
      (state, ga, ya)
    else (EMPTY, ga, ya)
  else if state = CONTESTED then
    if 2 * p.cmin ≤ (effA2 n : Int) ∧
        2 * p.marg ≤ (effA2 n : Int) - (effB2 n : Int) then
      (SPECIES_A, ga, ya)
    else if 2 * p.cmin ≤ (effB2 n : Int) ∧
        2 * p.marg ≤ (effB2 n : Int) - (effA2 n : Int) then
      (SPECIES_B, ga, ya)
    else if n.A + n.B < 2 ∨ p.ydec ≤ (ya : Int) + 1 then (EMPTY, ga, 0)
    else (CONTESTED, ga, (ya + 1) % 256)
  else (EMPTY, ga, ya)

/-- Synchronous reference update, following the spec's words: every cell's
next state, disease age and contested age are computed by one pure local
function of the pre-step current buffer (own state plus the 8 wrapped
neighbors) and the cell's own pre-step ages; the old current buffer
becomes the next buffer. -/
def stepSync (g : Grid) (p : Params) : Grid :=
  { columns := g.columns
    rows := g.rows
    grid := fun i =>
      if i < g.columns * g.rows then
        (localNext (g.grid i) (getNeighborCounts g (i % g.columns) (i / g.columns))
          (g.gAge i) (g.yAge i) p).1
      else g.next i
    next := g.grid
    gAge := fun i =>
      if i < g.columns * g.rows then
        (localNext (g.grid i) (getNeighborCounts g (i % g.columns) (i / g.columns))
          (g.gAge i) (g.yAge i) p).2.1
      else g.gAge i
    yAge := fun i =>
      if i < g.columns * g.rows then
        (localNext (g.grid i) (getNeighborCounts g (i % g.columns) (i / g.columns))
          (g.gAge i) (g.yAge i) p).2.2
      else g.yAge i }

/-- Lockstep invariant of spec §3: a cell's disease age is 0 unless it is
Diseased, and its contested age is 0 unless it is Contested. -/
def lockstepPre (g : Grid) : Prop :=
  ∀ i, i < g.columns * g.rows →
    (g.grid i ≠ DISEASED → g.gAge i = 0) ∧
    (g.grid i ≠ CONTESTED → g.yAge i = 0)

/-- Convenience builder for concrete grids from row-major lists. -/
def gridOfLists (c r : Nat) (states ga ya : List Nat) : Grid :=
  { columns := c, rows := r,
    grid := fun i => states.getD i 0,
    next := fun _ => 0,
    gAge := fun i => ga.getD i 0,
    yAge := fun i => ya.getD i 0 }

/-- Concrete snapshot used by the C1 scenario: a claim by Species A is
possible (`cmin = 2`, `marg = 1`), infection is off (`istr = 9`,
`iweak = 0`). -/
def exParams1 : Params := ⟨3, 2, 3, 4, 2, 1, 9, 0, 3, 3⟩

/-- Concrete 3×3 grid: Contested center with contested age 1 and three
Species-A neighbors down the left column. -/
def exGrid1 : Grid :=
  gridOfLists 3 3 [1, 0, 0, 1, 4, 0, 1, 0, 0]
    [0, 0, 0, 0, 0, 0, 0, 0, 0] [0, 0, 0, 0, 1, 0, 0, 0, 0]

/-- Concrete snapshot for the C2 scenario: no species can claim
(`cmin = 5`), decay age `ydec = 3`, infection off. -/
def exParams2 : Params := ⟨3, 2, 3, 4, 5, 0, 9, 0, 3, 3⟩

/-- Same snapshot with `ydec = 5`, for the surviving-contested branch. -/
def exParams2w : Params := ⟨3, 2, 3, 4, 5, 0, 9, 0, 3, 5⟩

/-- Concrete 3×3 grid: Contested center with contested age 2 and two
Species-A neighbors (so `A + B = 2`). -/
def exGrid2 : Grid :=
  gridOfLists 3 3 [1, 0, 1, 0, 4, 0, 0, 0, 0]
    [0, 0, 0, 0, 0, 0, 0, 0, 0] [0, 0, 0, 0, 2, 0, 0, 0, 0]

/-- Concrete snapshot with `tau = 300 > 255`. -/
def exParams3 : Params := ⟨3, 2, 3, 4, 5, 0, 9, 0, 300, 3⟩

/-- Concrete 1×1 grid holding a Diseased cell with disease age 255 (the
largest value a `Uint8Array` cell can hold). -/
def exGrid3 : Grid := gridOfLists 1 1 [3] [255] [0]

/-- Concrete snapshot with `tau = 3`. -/
def exParams3w : Params := ⟨3, 2, 3, 4, 5, 0, 9, 0, 3, 3⟩

/-- Concrete 1×1 grid holding a fresh Diseased cell (disease age 0). -/
def exGrid3w : Grid := gridOfLists 1 1 [3] [0] [0]

/-- Concrete snapshot with `birth = 4`: the multiplicative pressure of the
C4 scenario meets it, the flat variant would not. -/
def exParams4 : Params := ⟨4, 2, 3, 4, 9, 9, 9, 0, 3, 5⟩

/-- Concrete 3×3 grid: Empty center with two Species-A and two Contested
neighbors (`A = 2`, `Y = 2`, so `SA = 2 + 0.5*2*2 = 4` multiplicative but
`2 + 0.5*2 = 3` flat). -/
def exGrid4 : Grid :=
  gridOfLists 3 3 [1, 0, 1, 0, 0, 0, 4, 0, 4]
    (List.replicate 9 0) (List.replicate 9 0)

/-- Concrete snapshot with `birth = 0`. -/
def exParams7c : Params := ⟨0, 2, 3, 4, 5, 0, 9, 0, 3, 3⟩

/-- Concrete all-Empty 1×1 grid. -/
def exGrid7c : Grid := gridOfLists 1 1 [0] [0] [0]

/-- Concrete snapshot with `birth = 3`. -/
def exParams7w : Params := ⟨3, 2, 3, 4, 5, 0, 9, 0, 3, 3⟩

/-- Concrete 3×3 grid: Empty center with exactly three Species-A
neighbors and no Contested neighbors, so `SA = 3 = birth`, `SB = 0`. -/
def exGrid7w : Grid :=
  gridOfLists 3 3 [1, 0, 0, 1, 0, 0, 1, 0, 0]
    (List.replicate 9 0) (List.replicate 9 0)

/-- Concrete 2×2 grid whose only Species-A cell sits at
`(columns-1, rows-1) = (1, 1)`. -/
def exGrid8c : Grid :=
  gridOfLists 2 2 [0, 0, 0, 1] [0, 0, 0, 0] [0, 0, 0, 0]

/-- Concrete 3×3 grid whose only Species-A cell sits at
`(columns-1, rows-1) = (2, 2)`. -/
def exGrid8w : Grid :=
  gridOfLists 3 3 [0, 0, 0, 0, 0, 0, 0, 0, 1]
    (List.replicate 9 0) (List.replicate 9 0)

/-- Copy of `exGrid1` that differs only in the scratch `next` buffer:
state buffer, both age arrays and the dimensions are identical. -/
def exGrid9 : Grid :=
  { exGrid1 with next := fun _ => 7 }

/-- Concrete snapshot with `tau = 256`, just above the 8-bit age range. -/
def exParams10 : Params := ⟨3, 2, 3, 4, 5, 0, 9, 0, 256, 3⟩

/-- Concrete 1×1 grid holding a fresh Diseased cell, used with
`exParams10`. -/
def exGrid10 : Grid := gridOfLists 1 1 [3] [0] [0]

end Darwin

namespace DarwinJS

/-- JS `| 0` (ToInt32) conversion. -/
def toInt32 (x : Int) : Int :=
  (x + 2 ^ 31) % 2 ^ 32 - 2 ^ 31

/-- Allocation `new Uint8Array(len)`: ECMAScript ToIndex throws a
`RangeError` unless `0 ≤ len ≤ 2^53 - 1`; valid lengths yield a
zero-filled buffer.  (Modelling the threshold on the exact integer
product is faithful: every integer below `2^53` is exactly representable
as a double, and any integer product `≥ 2^53` rounds to a double that is
still `> 2^53 - 1`, so the float comparison never crosses the bound.) -/
def newUint8Array (len : Int) : Except String (List Nat) :=
  if len < 0 ∨ 2 ^ 53 - 1 < len then
    Except.error "RangeError: invalid typed array length"
  else Except.ok (List.replicate len.toNat 0)

/-- The `GridModel` of src/javascript/classes/Renderer.js as seen by its
constructor and `resize`: dimensions, cell size and the four buffers. -/
structure GridModelJS where
  columns : Int
  rows : Int
  cellSize : Int
  grid : List Nat
  nextBuf : List Nat
  gAge : List Nat
  yAge : List Nat
deriving DecidableEq

/-- GridModel.initializeGrids followed by the constructor's field
assignments: allocates four `Uint8Array(columns * rows)` buffers.  No
dimension validation is performed. -/
def GridModelJS.make (columns rows cellSize : Int) : Except String GridModelJS := do
  let size := columns * rows
  let g ← newUint8Array size
  let n ← newUint8Array size
  let ga ← newUint8Array size
  let ya ← newUint8Array size
  Except.ok { columns := columns, rows := rows, cellSize := cellSize,
              grid := g, nextBuf := n, gAge := ga, yAge := ya }

/-- GridModel.resize: `| 0`-convert the new dimensions, reallocate all
buffers, and when `keepContent` copy the overlapping rectangle of the old
state buffer (ages always reset). -/
def GridModelJS.resize (m : GridModelJS) (newColumns newRows cellSize : Int)
    (keepContent : Bool) : Except String GridModelJS := do
  let oldGrid := m.grid
  let oldColumns := m.columns
  let columns := toInt32 newColumns
  let rows := toInt32 newRows
  let fresh ← GridModelJS.make columns rows (toInt32 cellSize)
  if keepContent ∧ oldGrid.length ≠ 0 then
    let minColumns := min columns oldColumns
    let minRows := min rows m.rows
    let copied :=
      (List.range minRows.toNat).foldl
        (fun buf row =>
          (List.range minColumns.toNat).foldl
            (fun buf column =>
              buf.set (row * columns.toNat + column)
                (oldGrid.getD (row * oldColumns.toNat + column) 0))
            buf)
        fresh.grid
    Except.ok { fresh with grid := copied }
  else
    Except.ok fresh

end DarwinJS

namespace Darwin

theorem store_self (f : Nat → Nat) (i : Nat) : store f i (f i) = f := by
  funext j
  simp only [store]
  split
  · rename_i h
    rw [h]
  · rfl

theorem store_at (f : Nat → Nat) (i v : Nat) : store f i v i = v := by
  simp [store]

theorem store_ne (f : Nat → Nat) (i v j : Nat) (h : j ≠ i) :
    store f i v j = f j := by
  simp [store, h]

/-- Localization of `updateCell`: one call touches exactly the flat index
of its cell in the `next` buffer and the two age buffers, writing the
values of the pure per-cell transition `localNext`, and leaves the
dimensions and the whole current buffer unchanged. -/
theorem updateCell_eq (g : Grid) (x y : Nat) (p : Params) :
    updateCell g x y p =
      { g with
        next := store g.next (g.idx x y)
          (localNext (g.grid (g.idx x y)) (getNeighborCounts g x y)
            (g.gAge (g.idx x y)) (g.yAge (g.idx x y)) p).1,
        gAge := store g.gAge (g.idx x y)
          (localNext (g.grid (g.idx x y)) (getNeighborCounts g x y)
            (g.gAge (g.idx x y)) (g.yAge (g.idx x y)) p).2.1,
        yAge := store g.yAge (g.idx x y)
          (localNext (g.grid (g.idx x y)) (getNeighborCounts g x y)
            (g.gAge (g.idx x y)) (g.yAge (g.idx x y)) p).2.2 } := by
  by_cases h1 : checkInfection (g.grid (g.idx x y)) (getNeighborCounts g x y) p = true
  · simp only [updateCell, localNext, if_pos h1, store_self]
  · by_cases h2 : g.grid (g.idx x y) = DISEASED
    · simp only [updateCell, localNext, if_neg h1, if_pos h2]
      unfold ageDiseasedCell
      split_ifs <;> simp only [store_self]
    · by_cases h3 : g.grid (g.idx x y) = EMPTY
      · simp only [updateCell, localNext, if_neg h1, if_neg h2, if_pos h3]
        unfold handleEmptyCell
        split_ifs <;> simp only [store_self]
      · by_cases h4 : g.grid (g.idx x y) = SPECIES_A ∨ g.grid (g.idx x y) = SPECIES_B
        · simp only [updateCell, localNext, if_neg h1, if_neg h2, if_neg h3, if_pos h4]
          unfold handleSpeciesCell
          split_ifs <;> simp only [store_self]
        · by_cases h5 : g.grid (g.idx x y) = CONTESTED
          · simp only [updateCell, localNext, if_neg h1, if_neg h2, if_neg h3,
              if_neg h4, if_pos h5]
            unfold handleContestedCell
            split_ifs <;> simp only [store_self]
          · simp only [updateCell, localNext, if_neg h1, if_neg h2, if_neg h3,
              if_neg h4, if_neg h5, store_self]

theorem updateCell_columns (g : Grid) (x y : Nat) (p : Params) :
    (updateCell g x y p).columns = g.columns := by
  rw [updateCell_eq]

theorem updateCell_rows (g : Grid) (x y : Nat) (p : Params) :
    (updateCell g x y p).rows = g.rows := by
  rw [updateCell_eq]

theorem updateCell_grid (g : Grid) (x y : Nat) (p : Params) :
    (updateCell g x y p).grid = g.grid := by
  rw [updateCell_eq]

theorem updateCell_next_at (g : Grid) (x y : Nat) (p : Params) :
    (updateCell g x y p).next (g.idx x y) =
      (localNext (g.grid (g.idx x y)) (getNeighborCounts g x y)
        (g.gAge (g.idx x y)) (g.yAge (g.idx x y)) p).1 := by
  rw [updateCell_eq]
  exact store_at _ _ _

theorem updateCell_gAge_at (g : Grid) (x y : Nat) (p : Params) :
    (updateCell g x y p).gAge (g.idx x y) =
      (localNext (g.grid (g.idx x y)) (getNeighborCounts g x y)
        (g.gAge (g.idx x y)) (g.yAge (g.idx x y)) p).2.1 := by
  rw [updateCell_eq]
  exact store_at _ _ _

theorem updateCell_yAge_at (g : Grid) (x y : Nat) (p : Params) :
    (updateCell g x y p).yAge (g.idx x y) =
      (localNext (g.grid (g.idx x y)) (getNeighborCounts g x y)
        (g.gAge (g.idx x y)) (g.yAge (g.idx x y)) p).2.2 := by
  rw [updateCell_eq]
  exact store_at _ _ _

theorem updateCell_next_ne (g : Grid) (x y : Nat) (p : Params) (j : Nat)
    (h : j ≠ g.idx x y) : (updateCell g x y p).next j = g.next j := by
  rw [updateCell_eq]
  exact store_ne _ _ _ _ h

theorem updateCell_gAge_ne (g : Grid) (x y : Nat) (p : Params) (j : Nat)
    (h : j ≠ g.idx x y) : (updateCell g x y p).gAge j = g.gAge j := by
  rw [updateCell_eq]
  exact store_ne _ _ _ _ h

theorem updateCell_yAge_ne (g : Grid) (x y : Nat) (p : Params) (j : Nat)
    (h : j ≠ g.idx x y) : (updateCell g x y p).yAge j = g.yAge j := by
  rw [updateCell_eq]
  exact store_ne _ _ _ _ h

theorem getNeighborCounts_congr (g h : Grid) (hg : h.grid = g.grid)
    (hc : h.columns = g.columns) (hr : h.rows = g.rows) (x y : Nat) :
    getNeighborCounts h x y = getNeighborCounts g x y := by
  simp only [getNeighborCounts, hg, hc, hr]

theorem foldPass_columns (p : Params) (L : List (Nat × Nat)) :
    ∀ g : Grid,
      (L.foldl (fun h q => updateCell h q.1 q.2 p) g).columns = g.columns := by
  induction L with
  | nil => intro g; rfl
  | cons q T ih =>
    intro g
    rw [List.foldl_cons, ih, updateCell_columns]

theorem foldPass_rows (p : Params) (L : List (Nat × Nat)) :
    ∀ g : Grid,
      (L.foldl (fun h q => updateCell h q.1 q.2 p) g).rows = g.rows := by
  induction L with
  | nil => intro g; rfl
  | cons q T ih =>
    intro g
    rw [List.foldl_cons, ih, updateCell_rows]

theorem foldPass_grid (p : Params) (L : List (Nat × Nat)) :
    ∀ g : Grid,
      (L.foldl (fun h q => updateCell h q.1 q.2 p) g).grid = g.grid := by
  induction L with
  | nil => intro g; rfl
  | cons q T ih =>
    intro g
    rw [List.foldl_cons, ih, updateCell_grid]

/-- Cells whose flat index is hit by no element of the work list keep
their `next` and age entries across a pass. -/
theorem foldPass_untouched (p : Params) (L : List (Nat × Nat)) :
    ∀ (g : Grid) (j : Nat),
      (∀ q ∈ L, j ≠ q.2 * g.columns + q.1) →
      (L.foldl (fun h q => updateCell h q.1 q.2 p) g).next j = g.next j ∧
      (L.foldl (fun h q => updateCell h q.1 q.2 p) g).gAge j = g.gAge j ∧
      (L.foldl (fun h q => updateCell h q.1 q.2 p) g).yAge j = g.yAge j := by
  induction L with
  | nil => intro g j _; exact ⟨rfl, rfl, rfl⟩
  | cons q T ih =>
    intro g j hj
    rw [List.foldl_cons]
    have hq : j ≠ g.idx q.1 q.2 := hj q (List.mem_cons_self q T)
    have hT : ∀ q' ∈ T, j ≠ q'.2 * (updateCell g q.1 q.2 p).columns + q'.1 := by
      intro q' hq'
      rw [updateCell_columns]
      exact hj q' (List.mem_cons_of_mem q hq')
    obtain ⟨e1, e2, e3⟩ := ih (updateCell g q.1 q.2 p) j hT
    refine ⟨?_, ?_, ?_⟩
    · rw [e1, updateCell_next_ne g q.1 q.2 p j hq]
    · rw [e2, updateCell_gAge_ne g q.1 q.2 p j hq]
    · rw [e3, updateCell_yAge_ne g q.1 q.2 p j hq]

/-- Core locality of the pass: if the work list hits each flat index at
most once, the cell written for `(x0, y0)` receives exactly the pure
transition of the ORIGINAL grid at that cell. -/
theorem foldPass_at (p : Params) (L : List (Nat × Nat)) :
    ∀ (g : Grid) (x0 y0 : Nat),
      (x0, y0) ∈ L →
      (L.map fun q => q.2 * g.columns + q.1).Nodup →
      (L.foldl (fun h q => updateCell h q.1 q.2 p) g).next (y0 * g.columns + x0) =
          (localNext (g.grid (y0 * g.columns + x0)) (getNeighborCounts g x0 y0)
            (g.gAge (y0 * g.columns + x0)) (g.yAge (y0 * g.columns + x0)) p).1 ∧
      (L.foldl (fun h q => updateCell h q.1 q.2 p) g).gAge (y0 * g.columns + x0) =
          (localNext (g.grid (y0 * g.columns + x0)) (getNeighborCounts g x0 y0)
            (g.gAge (y0 * g.columns + x0)) (g.yAge (y0 * g.columns + x0)) p).2.1 ∧
      (L.foldl (fun h q => updateCell h q.1 q.2 p) g).yAge (y0 * g.columns + x0) =
          (localNext (g.grid (y0 * g.columns + x0)) (getNeighborCounts g x0 y0)
            (g.gAge (y0 * g.columns + x0)) (g.yAge (y0 * g.columns + x0)) p).2.2 := by
  induction L with
  | nil => intro g x0 y0 hm; exact absurd hm (List.not_mem_nil _)
  | cons q T ih =>
    intro g x0 y0 hm hnd
    rw [List.map_cons, List.nodup_cons] at hnd
    obtain ⟨hhead, hndT⟩ := hnd
    rcases List.mem_cons.1 hm with hq | hmT
    · -- the head processes (x0, y0); nothing later touches its index
      subst hq
      rw [List.foldl_cons]
      have hT : ∀ q' ∈ T,
          (y0 * g.columns + x0) ≠ q'.2 * (updateCell g x0 y0 p).columns + q'.1 := by
        intro q' hq'
        rw [updateCell_columns]
        intro hcontra
        exact hhead (hcontra ▸ List.mem_map_of_mem (fun q => q.2 * g.columns + q.1) hq')
      obtain ⟨e1, e2, e3⟩ := foldPass_untouched p T (updateCell g x0 y0 p)
        (y0 * g.columns + x0) hT
      have hidx : g.idx x0 y0 = y0 * g.columns + x0 := rfl
      refine ⟨?_, ?_, ?_⟩
      · rw [e1, ← hidx, updateCell_next_at]
      · rw [e2, ← hidx, updateCell_gAge_at]
      · rw [e3, ← hidx, updateCell_yAge_at]
    · -- the head is some other cell with a different flat index
      rw [List.foldl_cons]
      have hne : (y0 * g.columns + x0) ≠ g.idx q.1 q.2 := by
        intro hcontra
        have hmem : (y0 * g.columns + x0) ∈ T.map fun q' => q'.2 * g.columns + q'.1 :=
          List.mem_map_of_mem (fun q' => q'.2 * g.columns + q'.1) hmT
        rw [hcontra] at hmem
        exact hhead hmem
      have hcols : (updateCell g q.1 q.2 p).columns = g.columns :=
        updateCell_columns g q.1 q.2 p
      have hndT' : (T.map fun q' => q'.2 * (updateCell g q.1 q.2 p).columns + q'.1).Nodup := by
        rw [hcols]; exact hndT
      obtain ⟨e1, e2, e3⟩ := ih (updateCell g q.1 q.2 p) x0 y0 hmT hndT'
      rw [hcols] at e1 e2 e3
      have hgr : (updateCell g q.1 q.2 p).grid = g.grid := updateCell_grid g q.1 q.2 p
      have hcnt : getNeighborCounts (updateCell g q.1 q.2 p) x0 y0 =
          getNeighborCounts g x0 y0 :=
        getNeighborCounts_congr g _ hgr hcols (updateCell_rows g q.1 q.2 p) x0 y0
      rw [hgr, hcnt, updateCell_gAge_ne g q.1 q.2 p _ hne,
        updateCell_yAge_ne g q.1 q.2 p _ hne] at e1 e2 e3
      exact ⟨e1, e2, e3⟩

theorem cellOrder_map_idx (c r : Nat) :
    (cellOrder c r).map (fun q => q.2 * c + q.1) = List.range (r * c) := by
  induction r with
  | zero => simp [cellOrder]
  | succ n ih =>
    rw [cellOrder] at ih
    rw [cellOrder, List.range_succ, List.flatMap_append, List.map_append,
      Nat.succ_mul, List.range_add, ih]
    simp [List.map_map, Function.comp_def]

theorem mem_cellOrder {c r x y : Nat} : (x, y) ∈ cellOrder c r ↔ x < c ∧ y < r := by
  simp only [cellOrder, List.mem_flatMap, List.mem_map, List.mem_range,
    Prod.mk.injEq]
  constructor
  · rintro ⟨a, ha, b, hb, hbx, hay⟩
    exact ⟨hbx ▸ hb, hay ▸ ha⟩
  · rintro ⟨hx, hy⟩
    exact ⟨y, hy, x, hx, rfl, rfl⟩

theorem step_columns (g : Grid) (p : Params) : (step g p).columns = g.columns :=
  foldPass_columns p (cellOrder g.columns g.rows) g

theorem step_rows (g : Grid) (p : Params) : (step g p).rows = g.rows :=
  foldPass_rows p (cellOrder g.columns g.rows) g

/-- After the swap, the next buffer is the untouched pre-step current
buffer: `step` reads only the current buffer and never writes it. -/
theorem step_next (g : Grid) (p : Params) : (step g p).next = g.grid :=
  foldPass_grid p (cellOrder g.columns g.rows) g

/-- Locality of one generation: the post-step state and ages of an
in-range cell are exactly the pure local transition of its own pre-step
state, its Moore-neighbor counts in the pre-step current buffer, and its
own two pre-step ages. -/
theorem step_cell (g : Grid) (p : Params) (x y : Nat)
    (hx : x < g.columns) (hy : y < g.rows) :
    (step g p).grid (y * g.columns + x) =
        (localNext (g.grid (y * g.columns + x)) (getNeighborCounts g x y)
          (g.gAge (y * g.columns + x)) (g.yAge (y * g.columns + x)) p).1 ∧
    (step g p).gAge (y * g.columns + x) =
        (localNext (g.grid (y * g.columns + x)) (getNeighborCounts g x y)
          (g.gAge (y * g.columns + x)) (g.yAge (y * g.columns + x)) p).2.1 ∧
    (step g p).yAge (y * g.columns + x) =
        (localNext (g.grid (y * g.columns + x)) (getNeighborCounts g x y)
          (g.gAge (y * g.columns + x)) (g.yAge (y * g.columns + x)) p).2.2 := by
  have hnd : ((cellOrder g.columns g.rows).map
      fun q => q.2 * g.columns + q.1).Nodup := by
    rw [cellOrder_map_idx]
    exact List.nodup_range _
  exact foldPass_at p (cellOrder g.columns g.rows) g x y
    (mem_cellOrder.2 ⟨hx, hy⟩) hnd

/-- Flat indices outside the grid are never written during a pass. -/
theorem step_out_of_range (g : Grid) (p : Params) (j : Nat)
    (hj : g.columns * g.rows ≤ j) :
    (step g p).grid j = g.next j ∧
    (step g p).gAge j = g.gAge j ∧
    (step g p).yAge j = g.yAge j := by
  have hj' : ∀ q ∈ cellOrder g.columns g.rows, j ≠ q.2 * g.columns + q.1 := by
    rintro ⟨a, b⟩ hq hcontra
    have hmem : a < g.columns ∧ b < g.rows := mem_cellOrder.1 hq
    have h1 : b * g.columns + a < g.columns * g.rows :=
      calc b * g.columns + a < b * g.columns + g.columns :=
            Nat.add_lt_add_left hmem.1 _
        _ = (b + 1) * g.columns := by ring
        _ ≤ g.rows * g.columns := Nat.mul_le_mul_right _ hmem.2
        _ = g.columns * g.rows := Nat.mul_comm _ _
    rw [hcontra] at hj
    exact absurd h1 (Nat.not_lt.2 hj)
  exact foldPass_untouched p (cellOrder g.columns g.rows) g j hj'

theorem checkInfection_empty (n : Counts) (p : Params) :
    checkInfection EMPTY n p = false := by
  simp [checkInfection, SPECIES_ACTIVE, EMPTY, SPECIES_A, SPECIES_B, CONTESTED]

theorem checkInfection_diseased (n : Counts) (p : Params) :
    checkInfection DISEASED n p = false := by
  simp [checkInfection, SPECIES_ACTIVE, DISEASED, SPECIES_A, SPECIES_B, CONTESTED]

theorem localNext_diseased (n : Counts) (ga ya : Nat) (p : Params) :
    localNext DISEASED n ga ya p =
      if p.tau ≤ (ga : Int) then (EMPTY, 0, ya)
      else (DISEASED, (ga + 1) % 256, ya) := by
  unfold localNext
  rw [checkInfection_diseased]
  simp [EMPTY, SPECIES_A, SPECIES_B, DISEASED, CONTESTED]

theorem localNext_empty (n : Counts) (ga ya : Nat) (p : Params) :
    localNext EMPTY n ga ya p =
      if 2 * p.birth ≤ (effA2 n : Int) ∧ 2 * p.birth ≤ (effB2 n : Int) then
        (CONTESTED, ga, 0)
      else if 2 * p.birth ≤ (effA2 n : Int) ∧ (effB2 n : Int) < 2 * p.birth then
        (SPECIES_A, ga, ya)
      else if 2 * p.birth ≤ (effB2 n : Int) ∧ (effA2 n : Int) < 2 * p.birth then
        (SPECIES_B, ga, ya)
      else (EMPTY, ga, ya) := by
  unfold localNext
  rw [checkInfection_empty]
  simp [EMPTY, SPECIES_A, SPECIES_B, DISEASED, CONTESTED]

theorem localNext_contested (n : Counts) (ga ya : Nat) (p : Params)
    (hinf : checkInfection CONTESTED n p = false) :
    localNext CONTESTED n ga ya p =
      if 2 * p.cmin ≤ (effA2 n : Int) ∧
          2 * p.marg ≤ (effA2 n : Int) - (effB2 n : Int) then
        (SPECIES_A, ga, ya)
      else if 2 * p.cmin ≤ (effB2 n : Int) ∧
          2 * p.marg ≤ (effB2 n : Int) - (effA2 n : Int) then
        (SPECIES_B, ga, ya)
      else if n.A + n.B < 2 ∨ p.ydec ≤ (ya : Int) + 1 then (EMPTY, ga, 0)
      else (CONTESTED, ga, (ya + 1) % 256) := by
  unfold localNext
  rw [hinf]
  simp [EMPTY, SPECIES_A, SPECIES_B, DISEASED, CONTESTED]

set_option maxHeartbeats 1600000 in
/-- Case analysis behind the (amended) lockstep invariant: the disease-age
half is preserved outright, while the contested-age half can only fail
when a pre-step Contested cell is claimed by a species or infected, in
which case its stale contested age is carried over unchanged. -/
theorem localNext_lockstep (state : Nat) (n : Counts) (ga ya : Nat) (p : Params)
    (hg : state ≠ DISEASED → ga = 0) (hy : state ≠ CONTESTED → ya = 0) :
    ((localNext state n ga ya p).1 ≠ DISEASED →
      (localNext state n ga ya p).2.1 = 0) ∧
    ((localNext state n ga ya p).1 ≠ CONTESTED →
      ((localNext state n ga ya p).2.2 = 0 ∨
        (state = CONTESTED ∧ (localNext state n ga ya p).2.2 = ya ∧
          ((localNext state n ga ya p).1 = SPECIES_A ∨
            (localNext state n ga ya p).1 = SPECIES_B ∨
            (localNext state n ga ya p).1 = DISEASED)))) := by
  by_cases hst : state = CONTESTED
  · subst hst
    have hga : ga = 0 := hg (by decide)
    unfold localNext
    split_ifs <;>
      simp_all [EMPTY, SPECIES_A, SPECIES_B, DISEASED, CONTESTED]
  · have hya : ya = 0 := hy hst
    unfold localNext
    split_ifs <;>
      simp_all [EMPTY, SPECIES_A, SPECIES_B, DISEASED, CONTESTED]

/-- Flat-index version of `step_cell`, decomposing `i` into column
`i % columns` and row `i / columns`. -/
theorem step_cell_flat (g : Grid) (p : Params) (i : Nat)
    (hi : i < g.columns * g.rows) :
    (step g p).grid i =
        (localNext (g.grid i) (getNeighborCounts g (i % g.columns) (i / g.columns))
          (g.gAge i) (g.yAge i) p).1 ∧
    (step g p).gAge i =
        (localNext (g.grid i) (getNeighborCounts g (i % g.columns) (i / g.columns))
          (g.gAge i) (g.yAge i) p).2.1 ∧
    (step g p).yAge i =
        (localNext (g.grid i) (getNeighborCounts g (i % g.columns) (i / g.columns))
          (g.gAge i) (g.yAge i) p).2.2 := by
  have hc0 : 0 < g.columns := by
    rcases Nat.eq_zero_or_pos g.columns with h | h
    · rw [h, Nat.zero_mul] at hi
      exact absurd hi (Nat.not_lt_zero i)
    · exact h
  have hx : i % g.columns < g.columns := Nat.mod_lt i hc0
  have hy : i / g.columns < g.rows := by
    rw [Nat.div_lt_iff_lt_mul hc0]
    rw [Nat.mul_comm] at hi
    exact hi
  have hiy : (i / g.columns) * g.columns + i % g.columns = i := by
    rw [Nat.mul_comm]
    exact Nat.div_add_mod i g.columns
  have h := step_cell g p (i % g.columns) (i / g.columns) hx hy
  rw [hiy] at h
  exact h

/-- C5: `step()` is equivalent to the synchronous reference update: the
post-step buffers equal the pointwise map `stepSync`, in which every cell
is computed exactly once by the pure local transition of the pre-step
current buffer (own state plus the 8 wrapped neighbors) and the cell's
own pre-step age counters, and the pre-step current buffer (read-only
during the pass) becomes the next buffer. -/
theorem c5_step_is_synchronous_map (g : Grid) (p : Params) :
    step g p = stepSync g p := by
  have hgrid : (step g p).grid = (stepSync g p).grid := by
    funext i
    by_cases hi : i < g.columns * g.rows
    · obtain ⟨e1, _, _⟩ := step_cell_flat g p i hi
      rw [e1]
      simp only [stepSync]
      rw [if_pos hi]
    · obtain ⟨e1, _, _⟩ := step_out_of_range g p i (Nat.le_of_not_lt hi)
      rw [e1]
      simp only [stepSync]
      rw [if_neg hi]
  have hga : (step g p).gAge = (stepSync g p).gAge := by
    funext i
    by_cases hi : i < g.columns * g.rows
    · obtain ⟨_, e2, _⟩ := step_cell_flat g p i hi
      rw [e2]
      simp only [stepSync]
      rw [if_pos hi]
    · obtain ⟨_, e2, _⟩ := step_out_of_range g p i (Nat.le_of_not_lt hi)
      rw [e2]
      simp only [stepSync]
      rw [if_neg hi]
  have hya : (step g p).yAge = (stepSync g p).yAge := by
    funext i
    by_cases hi : i < g.columns * g.rows
    · obtain ⟨_, _, e3⟩ := step_cell_flat g p i hi
      rw [e3]
      simp only [stepSync]
      rw [if_pos hi]
    · obtain ⟨_, _, e3⟩ := step_out_of_range g p i (Nat.le_of_not_lt hi)
      rw [e3]
      simp only [stepSync]
      rw [if_neg hi]
  exact Grid.ext (step_columns g p) (step_rows g p) hgrid (step_next g p) hga hya


/-- C1 counterexample: `exGrid1` satisfies the lockstep invariant before
the step (its only aged cell is the Contested center), yet after one
`step()` the center has been claimed by Species A while its contested age
is still 1, so `age_contested[i] == 0 whenever state[i] != Contested`
fails post-step. -/
theorem c1_lockstep_counterexample :
    lockstepPre exGrid1 ∧
    (step exGrid1 exParams1).grid 4 = SPECIES_A ∧
    (step exGrid1 exParams1).grid 4 ≠ CONTESTED ∧
    (step exGrid1 exParams1).yAge 4 = 1 := by
  unfold lockstepPre
  decide

/-- C2 counterexample: the Contested center of `exGrid2` has
`age_contested = ydec - 1 = 2`, two species neighbors (`A + B = 2 ≥ 2`),
no infection and no species claim, yet the very next generation it is
Empty with age 0 — not "still Contested with age ydec" as the claim
states (the code decays when `age_contested + 1 ≥ ydec`). -/
theorem c2_contested_decay_counterexample :
    (exGrid2.grid 4 = CONTESTED ∧ exGrid2.yAge 4 = 2 ∧ exParams2.ydec = 3 ∧
      (getNeighborCounts exGrid2 1 1).A + (getNeighborCounts exGrid2 1 1).B = 2 ∧
      checkInfection CONTESTED (getNeighborCounts exGrid2 1 1) exParams2 = false ∧
      ¬ 2 * exParams2.cmin ≤ (effA2 (getNeighborCounts exGrid2 1 1) : Int) ∧
      ¬ 2 * exParams2.cmin ≤ (effB2 (getNeighborCounts exGrid2 1 1) : Int)) ∧
    (step exGrid2 exParams2).grid 4 = EMPTY ∧
    (step exGrid2 exParams2).grid 4 ≠ CONTESTED ∧
    (step exGrid2 exParams2).yAge 4 = 0 := by
  decide

/-- C3 counterexample: ages are 8-bit, so a Diseased cell at age 255 with
`tau = 300` stays Diseased but its age wraps to 0 instead of being
"incremented by exactly 1" (it does not become 256). -/
theorem c3_disease_age_counterexample :
    exGrid3.grid 0 = DISEASED ∧ exGrid3.gAge 0 = 255 ∧ exParams3.tau = 300 ∧
    (step exGrid3 exParams3).grid 0 = DISEASED ∧
    (step exGrid3 exParams3).gAge 0 = 0 ∧
    (step exGrid3 exParams3).gAge 0 ≠ 255 + 1 := by
  decide

/-- C6 counterexample: creating a grid with `columns = 0 ≤ 0` does not
fail with any error — it silently returns a grid with empty buffers
(`new Uint8Array(0)` succeeds); there is no InvalidDimension check. -/
theorem c6_no_dimension_check_counterexample :
    DarwinJS.GridModelJS.make 0 5 8 =
      Except.ok ⟨0, 5, 8, [], [], [], []⟩ ∧
    (DarwinJS.GridModelJS.make 0 5 8).isOk = true ∧
    DarwinJS.GridModelJS.make 0 5 8 ≠
      Except.error "RangeError: invalid typed array length" := by
  refine ⟨rfl, rfl, ?_⟩
  intro h
  exact Except.noConfusion h

/-- C7 counterexample: with `birth = 0` an Empty cell with `SA == birth`
(both are 0) and `SB == 0` becomes Contested, not SpeciesA, because
`SB ≥ birth` holds as well. -/
theorem c7_birth_counterexample :
    exParams7c.birth = 0 ∧
    (effA2 (getNeighborCounts exGrid7c 0 0) : Int) = 2 * exParams7c.birth ∧
    effB2 (getNeighborCounts exGrid7c 0 0) = 0 ∧
    exGrid7c.grid 0 = EMPTY ∧
    (step exGrid7c exParams7c).grid 0 = CONTESTED ∧
    (step exGrid7c exParams7c).grid 0 ≠ SPECIES_A := by
  decide

/-- C8 counterexample: on a 2×2 torus with the single Species-A cell at
`(columns-1, rows-1)`, four of the eight wrapped offsets of `(0,0)` land
on that cell, so `neighborCounts(0,0).A = 4`, not 1. -/
theorem c8_wrap_counterexample :
    (∀ i, i < exGrid8c.columns * exGrid8c.rows →
      exGrid8c.grid i =
        if i = (exGrid8c.rows - 1) * exGrid8c.columns + (exGrid8c.columns - 1)
        then SPECIES_A else EMPTY) ∧
    (getNeighborCounts exGrid8c 0 0).A = 4 ∧
    (getNeighborCounts exGrid8c 0 0).A ≠ 1 := by
  decide

/-- The JS truncated-remainder based `wrap` agrees with the Euclidean
(equivalently, for positive extent, floored) modulo. -/
theorem wrap_eq_emod (v n : Int) (hn : 0 < n) : wrap v n = v % n := by
  simp only [wrap]
  have htd : Int.tmod v n = v - n * (v.tdiv n) := Int.tmod_def v n
  have hcong : Int.tmod v n % n = v % n := by
    have h2 : v - n * v.tdiv n = v + n * (-(v.tdiv n)) := by ring
    rw [htd, h2, Int.add_mul_emod_self_left]
  have hub : Int.tmod v n < n := Int.tmod_lt_of_pos v hn
  have hlb : -n < Int.tmod v n := by
    rcases le_or_lt 0 v with hv | hv
    · have := Int.tmod_nonneg n hv
      omega
    · have hneg : Int.tmod (-v) n = -Int.tmod v n := by
        rw [Int.tmod_def, Int.tmod_def, Int.neg_tdiv]
        ring
      have h1 : 0 ≤ Int.tmod (-v) n := Int.tmod_nonneg n (by omega)
      have h2 : Int.tmod (-v) n < n := Int.tmod_lt_of_pos (-v) hn
      omega
  have he1 : 0 ≤ v % n := Int.emod_nonneg v (by omega)
  have he2 : v % n < n := Int.emod_lt_of_pos v hn
  by_cases hneg : Int.tmod v n < 0
  · rw [if_pos hneg]
    have hsum : Int.tmod v n + n = Int.tmod v n + n * 1 := by ring
    have : (Int.tmod v n + n) % n = v % n := by
      rw [hsum, Int.add_mul_emod_self_left, hcong]
    calc Int.tmod v n + n
        = (Int.tmod v n + n) % n := (Int.emod_eq_of_lt (by omega) (by omega)).symm
      _ = v % n := this
  · rw [if_neg hneg]
    calc Int.tmod v n = Int.tmod v n % n :=
          (Int.emod_eq_of_lt (by omega) hub).symm
      _ = v % n := hcong

theorem wrap_neg_one_toNat (m : Nat) (hm : 1 ≤ m) :
    (wrap (-1) (m : Int)).toNat = m - 1 := by
  rw [wrap_eq_emod _ _ (by omega)]
  have h2 : (-1 : Int) + (m : Int) * 1 = (m : Int) - 1 := by ring
  have h1 : (-1 : Int) % (m : Int) = (m : Int) - 1 := by
    rw [← Int.add_mul_emod_self_left (-1) (m : Int) 1, h2]
    exact Int.emod_eq_of_lt (by omega) (by omega)
  rw [h1]
  omega

theorem wrap_zero_toNat (m : Nat) (hm : 1 ≤ m) :
    (wrap 0 (m : Int)).toNat = 0 := by
  rw [wrap_eq_emod _ _ (by omega), Int.zero_emod]
  rfl

theorem wrap_one_toNat (m : Nat) (hm : 2 ≤ m) :
    (wrap 1 (m : Int)).toNat = 1 := by
  rw [wrap_eq_emod _ _ (by omega), Int.emod_eq_of_lt (by omega) (by omega)]
  rfl

/-- C8 (amended): `wrap(v, extent)` is the floored modulo into
`[0, extent)` and never negative, for every integer `v` and `extent > 0`;
and on every grid with `columns ≥ 3` and `rows ≥ 3` whose only Species-A
cell sits at `(columns-1, rows-1)` (all other cells Empty),
`neighborCounts(0,0)` reports an A count of exactly 1.  (On smaller grids
several wrapped offsets alias the same cell, see the counterexample.) -/
theorem c8_wrap_and_torus_amended :
    (∀ v n : Int, 0 < n →
      wrap v n = Int.fmod v n ∧ 0 ≤ wrap v n ∧ wrap v n < n) ∧
    (∀ g : Grid, 3 ≤ g.columns → 3 ≤ g.rows →
      (∀ i, i < g.columns * g.rows →
        g.grid i =
          if i = (g.rows - 1) * g.columns + (g.columns - 1)
          then SPECIES_A else EMPTY) →
      (getNeighborCounts g 0 0).A = 1) := by
  constructor
  · intro v n hn
    have he := wrap_eq_emod v n hn
    refine ⟨?_, ?_, ?_⟩
    · rw [he, Int.fmod_eq_emod v (le_of_lt hn)]
    · rw [he]
      exact Int.emod_nonneg v (by omega)
    · rw [he]
      exact Int.emod_lt_of_pos v hn
  · intro g hc hr hgrid
    have hprod : 2 * g.columns ≤ (g.rows - 1) * g.columns :=
      Nat.mul_le_mul_right g.columns (by omega)
    have hsplit : (g.rows - 1) * g.columns + g.columns = g.columns * g.rows := by
      obtain ⟨r', hr'⟩ : ∃ r', g.rows = r' + 1 := ⟨g.rows - 1, by omega⟩
      rw [hr']
      simp only [Nat.add_sub_cancel]
      ring
    have hwnc := wrap_neg_one_toNat g.columns (by omega)
    have hwnr := wrap_neg_one_toNat g.rows (by omega)
    have hw0c := wrap_zero_toNat g.columns (by omega)
    have hw0r := wrap_zero_toNat g.rows (by omega)
    have hw1c := wrap_one_toNat g.columns (by omega)
    have hw1r := wrap_one_toNat g.rows (by omega)
    simp only [getNeighborCounts, offsets, List.foldl, Nat.cast_zero, zero_add,
      neg_add_rev]
    rw [hwnc, hwnr, hw0c, hw0r, hw1c, hw1r]
    rw [hgrid ((g.rows - 1) * g.columns + (g.columns - 1)) (by omega),
      hgrid ((g.rows - 1) * g.columns + 0) (by omega),
      hgrid ((g.rows - 1) * g.columns + 1) (by omega),
      hgrid (0 * g.columns + (g.columns - 1)) (by omega),
      hgrid (0 * g.columns + 1) (by omega),
      hgrid (1 * g.columns + (g.columns - 1)) (by omega),
      hgrid (1 * g.columns + 0) (by omega),
      hgrid (1 * g.columns + 1) (by omega)]
    rw [if_pos rfl, if_neg (by omega), if_neg (by omega), if_neg (by omega),
      if_neg (by omega), if_neg (by omega), if_neg (by omega), if_neg (by omega)]
    simp [bump, EMPTY, SPECIES_A, SPECIES_B, DISEASED, CONTESTED]

theorem c8_wrap_and_torus_amended_witness :
    ((0 : Int) < 3 ∧
      (wrap (-7) 3 = Int.fmod (-7) 3 ∧ 0 ≤ wrap (-7) 3 ∧ wrap (-7) 3 < 3)) ∧
    ((3 ≤ exGrid8w.columns ∧ 3 ≤ exGrid8w.rows ∧
        (∀ i, i < exGrid8w.columns * exGrid8w.rows →
          exGrid8w.grid i =
            if i = (exGrid8w.rows - 1) * exGrid8w.columns + (exGrid8w.columns - 1)
            then SPECIES_A else EMPTY)) ∧
      (getNeighborCounts exGrid8w 0 0).A = 1) :=
  ⟨⟨by decide, c8_wrap_and_torus_amended.1 (-7) 3 (by decide)⟩,
    ⟨⟨by decide, by decide, by decide⟩,
      c8_wrap_and_torus_amended.2 exGrid8w (by decide) (by decide) (by decide)⟩⟩

/-- C1 (amended): after `step()` on a grid satisfying the lockstep
invariant, `age_disease[i] == 0` whenever `state[i] != Diseased` holds for
every in-range cell; `age_contested[i] == 0` whenever
`state[i] != Contested` holds except in one case the code permits: a
pre-step Contested cell that is claimed by a species or infected keeps its
stale contested age unchanged. -/
theorem c1_lockstep_amended (g : Grid) (p : Params) (hpre : lockstepPre g)
    (i : Nat) (hi : i < g.columns * g.rows) :
    ((step g p).grid i ≠ DISEASED → (step g p).gAge i = 0) ∧
    ((step g p).grid i ≠ CONTESTED →
      ((step g p).yAge i = 0 ∨
        (g.grid i = CONTESTED ∧ (step g p).yAge i = g.yAge i ∧
          ((step g p).grid i = SPECIES_A ∨ (step g p).grid i = SPECIES_B ∨
            (step g p).grid i = DISEASED)))) := by
  obtain ⟨e1, e2, e3⟩ := step_cell_flat g p i hi
  obtain ⟨hg, hy⟩ := hpre i hi
  have h := localNext_lockstep (g.grid i)
    (getNeighborCounts g (i % g.columns) (i / g.columns))
    (g.gAge i) (g.yAge i) p hg hy
  rw [e1, e2, e3]
  exact h

theorem c1_lockstep_amended_witness :
    lockstepPre exGrid1 ∧ 4 < exGrid1.columns * exGrid1.rows ∧
    (((step exGrid1 exParams1).grid 4 ≠ DISEASED →
        (step exGrid1 exParams1).gAge 4 = 0) ∧
      ((step exGrid1 exParams1).grid 4 ≠ CONTESTED →
        ((step exGrid1 exParams1).yAge 4 = 0 ∨
          (exGrid1.grid 4 = CONTESTED ∧
            (step exGrid1 exParams1).yAge 4 = exGrid1.yAge 4 ∧
            ((step exGrid1 exParams1).grid 4 = SPECIES_A ∨
              (step exGrid1 exParams1).grid 4 = SPECIES_B ∨
              (step exGrid1 exParams1).grid 4 = DISEASED))))) :=
  ⟨by unfold lockstepPre; decide, by decide,
    c1_lockstep_amended exGrid1 exParams1 (by unfold lockstepPre; decide) 4
      (by decide)⟩

/-- C2 (amended): for an in-range Contested cell that is not infected and
that neither species can claim, the code decays it to Empty with age 0
whenever `A + B < 2` or `age_contested + 1 ≥ ydec` — in particular a cell
with `age_contested = ydec - 1` becomes Empty on the very next generation,
not one generation later — and otherwise it stays Contested with its age
incremented (modulo 256). -/
theorem c2_contested_decay_amended (g : Grid) (p : Params) (x y : Nat)
    (hx : x < g.columns) (hy : y < g.rows)
    (hst : g.grid (y * g.columns + x) = CONTESTED)
    (hinf : checkInfection CONTESTED (getNeighborCounts g x y) p = false)
    (hnA : ¬ (2 * p.cmin ≤ (effA2 (getNeighborCounts g x y) : Int) ∧
      2 * p.marg ≤ (effA2 (getNeighborCounts g x y) : Int) -
        (effB2 (getNeighborCounts g x y) : Int)))
    (hnB : ¬ (2 * p.cmin ≤ (effB2 (getNeighborCounts g x y) : Int) ∧
      2 * p.marg ≤ (effB2 (getNeighborCounts g x y) : Int) -
        (effA2 (getNeighborCounts g x y) : Int))) :
    ((getNeighborCounts g x y).A + (getNeighborCounts g x y).B < 2 ∨
        p.ydec ≤ (g.yAge (y * g.columns + x) : Int) + 1 →
      (step g p).grid (y * g.columns + x) = EMPTY ∧
        (step g p).yAge (y * g.columns + x) = 0) ∧
    (¬ ((getNeighborCounts g x y).A + (getNeighborCounts g x y).B < 2 ∨
        p.ydec ≤ (g.yAge (y * g.columns + x) : Int) + 1) →
      (step g p).grid (y * g.columns + x) = CONTESTED ∧
        (step g p).yAge (y * g.columns + x) =
          (g.yAge (y * g.columns + x) + 1) % 256) := by
  obtain ⟨e1, _, e3⟩ := step_cell g p x y hx hy
  rw [hst] at e1 e3
  rw [localNext_contested _ _ _ _ hinf] at e1 e3
  constructor
  · intro hdec
    rw [e1, e3, if_neg hnA, if_neg hnB, if_pos hdec]
    exact ⟨rfl, rfl⟩
  · intro hdec
    rw [e1, e3, if_neg hnA, if_neg hnB, if_neg hdec]
    exact ⟨rfl, rfl⟩

theorem c2_contested_decay_amended_witness :
    (exGrid2.grid 4 = CONTESTED ∧
      ((getNeighborCounts exGrid2 1 1).A + (getNeighborCounts exGrid2 1 1).B < 2 ∨
        exParams2.ydec ≤ (exGrid2.yAge 4 : Int) + 1)) ∧
    ((step exGrid2 exParams2).grid 4 = EMPTY ∧
      (step exGrid2 exParams2).yAge 4 = 0) :=
  ⟨⟨by decide, by decide⟩,
    (c2_contested_decay_amended exGrid2 exParams2 1 1 (by decide) (by decide)
      (by decide) (by decide) (by decide) (by decide)).1 (by decide)⟩

/-- C7 (amended): the Empty-cell birth rule behaves exactly as the claim
orders it (Contested when both pressures reach birth, else SpeciesA on
`SA ≥ birth`, else SpeciesB on `SB ≥ birth`, else Empty); the two
boundary facts — `SA = birth, SB = 0` births SpeciesA and
`SA = birth - 1, SB = 0` stays Empty — additionally require `birth ≥ 1`
(with `birth = 0`, `SB = 0 ≥ birth` makes the cell Contested instead,
see the counterexample).  Pressures are scaled by 2 throughout. -/
theorem c7_birth_rule_amended (g : Grid) (p : Params) (x y : Nat)
    (hx : x < g.columns) (hy : y < g.rows)
    (hst : g.grid (y * g.columns + x) = EMPTY) :
    (2 * p.birth ≤ (effA2 (getNeighborCounts g x y) : Int) ∧
        2 * p.birth ≤ (effB2 (getNeighborCounts g x y) : Int) →
      (step g p).grid (y * g.columns + x) = CONTESTED ∧
        (step g p).yAge (y * g.columns + x) = 0) ∧
    (2 * p.birth ≤ (effA2 (getNeighborCounts g x y) : Int) ∧
        ¬ 2 * p.birth ≤ (effB2 (getNeighborCounts g x y) : Int) →
      (step g p).grid (y * g.columns + x) = SPECIES_A) ∧
    (¬ 2 * p.birth ≤ (effA2 (getNeighborCounts g x y) : Int) ∧
        2 * p.birth ≤ (effB2 (getNeighborCounts g x y) : Int) →
      (step g p).grid (y * g.columns + x) = SPECIES_B) ∧
    (¬ 2 * p.birth ≤ (effA2 (getNeighborCounts g x y) : Int) ∧
        ¬ 2 * p.birth ≤ (effB2 (getNeighborCounts g x y) : Int) →
      (step g p).grid (y * g.columns + x) = EMPTY) ∧
    (1 ≤ p.birth → (effA2 (getNeighborCounts g x y) : Int) = 2 * p.birth →
      effB2 (getNeighborCounts g x y) = 0 →
      (step g p).grid (y * g.columns + x) = SPECIES_A) ∧
    (1 ≤ p.birth →
      (effA2 (getNeighborCounts g x y) : Int) = 2 * p.birth - 2 →
      effB2 (getNeighborCounts g x y) = 0 →
      (step g p).grid (y * g.columns + x) = EMPTY) := by
  obtain ⟨e1, _, e3⟩ := step_cell g p x y hx hy
  rw [hst] at e1 e3
  rw [localNext_empty] at e1 e3
  refine ⟨?_, ?_, ?_, ?_, ?_, ?_⟩
  · intro h
    rw [e1, e3, if_pos h]
    exact ⟨rfl, rfl⟩
  · intro h
    rw [e1, if_neg (by omega), if_pos (by omega)]
  · intro h
    rw [e1, if_neg (by omega), if_neg (by omega), if_pos (by omega)]
  · intro h
    rw [e1, if_neg (by omega), if_neg (by omega), if_neg (by omega)]
  · intro hb hA hB
    rw [e1, if_neg (by omega), if_pos (by omega)]
  · intro hb hA hB
    rw [e1, if_neg (by omega), if_neg (by omega), if_neg (by omega)]

theorem c7_birth_rule_amended_witness :
    (exGrid7w.grid 4 = EMPTY ∧ 1 ≤ exParams7w.birth ∧
      (effA2 (getNeighborCounts exGrid7w 1 1) : Int) = 2 * exParams7w.birth ∧
      effB2 (getNeighborCounts exGrid7w 1 1) = 0) ∧
    (step exGrid7w exParams7w).grid 4 = SPECIES_A :=
  ⟨⟨by decide, by decide, by decide, by decide⟩,
    (c7_birth_rule_amended exGrid7w exParams7w 1 1 (by decide) (by decide)
      (by decide)).2.2.2.2.1 (by decide) (by decide) (by decide)⟩

theorem stepN_dims (g : Grid) (p : Params) :
    ∀ k, (stepN g p k).columns = g.columns ∧ (stepN g p k).rows = g.rows := by
  intro k
  induction k with
  | zero => exact ⟨rfl, rfl⟩
  | succ n ih =>
    exact ⟨(step_columns (stepN g p n) p).trans ih.1,
      (step_rows (stepN g p n) p).trans ih.2⟩

/-- Ladder for a Diseased cell below the decay threshold: starting from
disease age 0, after `k ≤ tau ≤ 255` generations the cell is still
Diseased with age exactly `k`. -/
theorem stepN_diseased_ladder (g : Grid) (p : Params) (x y : Nat)
    (hx : x < g.columns) (hy : y < g.rows)
    (hst : g.grid (y * g.columns + x) = DISEASED)
    (hage : g.gAge (y * g.columns + x) = 0)
    (htau : p.tau ≤ 255) :
    ∀ k : Nat, (k : Int) ≤ p.tau →
      (stepN g p k).grid (y * g.columns + x) = DISEASED ∧
      (stepN g p k).gAge (y * g.columns + x) = k := by
  intro k
  induction k with
  | zero => intro _; exact ⟨hst, hage⟩
  | succ n ih =>
    intro hk
    have hn : (n : Int) ≤ p.tau := by push_cast at hk ⊢; omega
    obtain ⟨hd, ha⟩ := ih hn
    have hcols := (stepN_dims g p n).1
    have hrows := (stepN_dims g p n).2
    obtain ⟨e1, e2, _⟩ := step_cell (stepN g p n) p x y
      (by rw [hcols]; exact hx) (by rw [hrows]; exact hy)
    rw [hcols] at e1 e2
    rw [hd, ha, localNext_diseased] at e1 e2
    have hnt : ¬ p.tau ≤ (n : Int) := by push_cast at hk; omega
    rw [if_neg hnt] at e1 e2
    have hmod : (n + 1) % 256 = n + 1 := by
      apply Nat.mod_eq_of_lt
      push_cast at hk
      omega
    refine ⟨e1, ?_⟩
    show (step (stepN g p n) p).gAge (y * g.columns + x) = n + 1
    rw [e2]
    exact hmod

/-- C3 (amended): a Diseased cell with `age_disease ≥ tau` clears to
Empty with age 0 in one step, and otherwise stays Diseased with age
`(age_disease + 1) mod 256` — the increment is exact only below the 8-bit
bound (see the counterexample at age 255 with `tau = 300`).  When
`0 ≤ tau ≤ 255`, a cell that became Diseased with age 0 remains Diseased
with age `k` after every `k ≤ tau` generations and clears to Empty with
age 0 on generation `tau + 1`. -/
theorem c3_disease_decay_amended (g : Grid) (p : Params) (x y : Nat)
    (hx : x < g.columns) (hy : y < g.rows)
    (hst : g.grid (y * g.columns + x) = DISEASED) :
    (p.tau ≤ (g.gAge (y * g.columns + x) : Int) →
      (step g p).grid (y * g.columns + x) = EMPTY ∧
        (step g p).gAge (y * g.columns + x) = 0) ∧
    (¬ p.tau ≤ (g.gAge (y * g.columns + x) : Int) →
      (step g p).grid (y * g.columns + x) = DISEASED ∧
        (step g p).gAge (y * g.columns + x) =
          (g.gAge (y * g.columns + x) + 1) % 256) ∧
    (g.gAge (y * g.columns + x) = 0 → 0 ≤ p.tau → p.tau ≤ 255 →
      (∀ k : Nat, (k : Int) ≤ p.tau →
        (stepN g p k).grid (y * g.columns + x) = DISEASED ∧
        (stepN g p k).gAge (y * g.columns + x) = k) ∧
      ((stepN g p (p.tau.toNat + 1)).grid (y * g.columns + x) = EMPTY ∧
        (stepN g p (p.tau.toNat + 1)).gAge (y * g.columns + x) = 0)) := by
  obtain ⟨e1, e2, _⟩ := step_cell g p x y hx hy
  rw [hst, localNext_diseased] at e1 e2
  refine ⟨?_, ?_, ?_⟩
  · intro h
    rw [e1, e2, if_pos h]
    exact ⟨rfl, rfl⟩
  · intro h
    rw [e1, e2, if_neg h]
    exact ⟨rfl, rfl⟩
  · intro hage htau0 htau255
    have hladder := stepN_diseased_ladder g p x y hx hy hst hage htau255
    refine ⟨hladder, ?_⟩
    have htnat : ((p.tau.toNat : Nat) : Int) = p.tau := Int.toNat_of_nonneg htau0
    obtain ⟨hd, ha⟩ := hladder p.tau.toNat (by rw [htnat])
    have hcols := (stepN_dims g p p.tau.toNat).1
    have hrows := (stepN_dims g p p.tau.toNat).2
    obtain ⟨f1, f2, _⟩ := step_cell (stepN g p p.tau.toNat) p x y
      (by rw [hcols]; exact hx) (by rw [hrows]; exact hy)
    rw [hcols] at f1 f2
    rw [hd, ha, localNext_diseased] at f1 f2
    have hstale : p.tau ≤ (p.tau.toNat : Int) := by rw [htnat]
    rw [if_pos hstale] at f1 f2
    exact ⟨f1, f2⟩

theorem c3_disease_decay_amended_witness :
    (exGrid3w.grid 0 = DISEASED ∧ exGrid3w.gAge 0 = 0 ∧
      (0 : Int) ≤ exParams3w.tau ∧ exParams3w.tau ≤ 255 ∧
      exParams3w.tau = 3) ∧
    ((stepN exGrid3w exParams3w 3).grid 0 = DISEASED ∧
      (stepN exGrid3w exParams3w 3).gAge 0 = 3 ∧
      (stepN exGrid3w exParams3w 4).grid 0 = EMPTY ∧
      (stepN exGrid3w exParams3w 4).gAge 0 = 0) := by
  have h := (c3_disease_decay_amended exGrid3w exParams3w 0 0 (by decide)
    (by decide) (by decide)).2.2 (by decide) (by decide) (by decide)
  obtain ⟨hl, hf⟩ := h
  obtain ⟨h3d, h3a⟩ := hl 3 (by decide)
  exact ⟨⟨by decide, by decide, by decide, by decide, by decide⟩,
    ⟨h3d, h3a, hf.1, hf.2⟩⟩

/-- C10: age counters are 8-bit, every increment is taken mod 256, and a
Diseased cell never reaches `age_disease ≥ tau` when `tau > 255`: it
stays Diseased forever (its age forever below 256, hence below tau) and
the disease-decay rule never clears it to Empty. -/
theorem c10_eight_bit_age_wrap (g : Grid) (p : Params) (x y : Nat)
    (hx : x < g.columns) (hy : y < g.rows)
    (hst : g.grid (y * g.columns + x) = DISEASED)
    (hage : g.gAge (y * g.columns + x) < 256)
    (htau : 255 < p.tau) :
    (∀ k : Nat,
      (stepN g p k).grid (y * g.columns + x) = DISEASED ∧
      (stepN g p k).gAge (y * g.columns + x) < 256 ∧
      ¬ p.tau ≤ ((stepN g p k).gAge (y * g.columns + x) : Int)) ∧
    (∀ k : Nat,
      (stepN g p (k + 1)).gAge (y * g.columns + x) =
        ((stepN g p k).gAge (y * g.columns + x) + 1) % 256) := by
  have hmain : ∀ k : Nat,
      (stepN g p k).grid (y * g.columns + x) = DISEASED ∧
      (stepN g p k).gAge (y * g.columns + x) < 256 := by
    intro k
    induction k with
    | zero => exact ⟨hst, hage⟩
    | succ n ih =>
      obtain ⟨hd, ha⟩ := ih
      have hcols := (stepN_dims g p n).1
      have hrows := (stepN_dims g p n).2
      obtain ⟨e1, e2, _⟩ := step_cell (stepN g p n) p x y
        (by rw [hcols]; exact hx) (by rw [hrows]; exact hy)
      rw [hcols] at e1 e2
      rw [hd, localNext_diseased] at e1 e2
      have hnt : ¬ p.tau ≤ ((stepN g p n).gAge (y * g.columns + x) : Int) := by
        omega
      rw [if_neg hnt] at e1 e2
      refine ⟨e1, ?_⟩
      show (step (stepN g p n) p).gAge (y * g.columns + x) < 256
      rw [e2]
      exact Nat.mod_lt _ (by omega)
  constructor
  · intro k
    obtain ⟨hd, ha⟩ := hmain k
    refine ⟨hd, ha, ?_⟩
    omega
  · intro k
    obtain ⟨hd, ha⟩ := hmain k
    have hcols := (stepN_dims g p k).1
    have hrows := (stepN_dims g p k).2
    obtain ⟨_, e2, _⟩ := step_cell (stepN g p k) p x y
      (by rw [hcols]; exact hx) (by rw [hrows]; exact hy)
    rw [hcols] at e2
    rw [hd, localNext_diseased] at e2
    have hnt : ¬ p.tau ≤ ((stepN g p k).gAge (y * g.columns + x) : Int) := by
      omega
    rw [if_neg hnt] at e2
    exact e2

theorem c10_eight_bit_age_wrap_witness :
    (exGrid10.grid 0 = DISEASED ∧ exGrid10.gAge 0 < 256 ∧
      255 < exParams10.tau) ∧
    ((stepN exGrid10 exParams10 2).grid 0 = DISEASED ∧
      (stepN exGrid10 exParams10 3).gAge 0 =
        ((stepN exGrid10 exParams10 2).gAge 0 + 1) % 256) := by
  have h := c10_eight_bit_age_wrap exGrid10 exParams10 0 0 (by decide)
    (by decide) (by decide) (by decide) (by decide)
  exact ⟨⟨by decide, by decide, by decide⟩, ⟨(h.1 2).1, h.2 2⟩⟩

/-- C4: the engine's effective pressures are the multiplicative form
`SA = A + 0.5*Y*A`, `SB = B + 0.5*Y*B` (here scaled by 2: `effA2 / 2` is
the JS value), not the legacy flat `+0.5*Y` bonus of src/script.js: in
`exGrid4` the Empty center has `A = 2, Y = 2, birth = 4`; the
multiplicative pressure reaches birth and `step()` births Species A,
while the flat-bonus pressure stays strictly below birth. -/
theorem c4_multiplicative_pressure :
    (∀ n : Counts,
      (effA2 n : ℚ) / 2 = (n.A : ℚ) + 1 / 2 * n.Y * n.A ∧
      (effB2 n : ℚ) / 2 = (n.B : ℚ) + 1 / 2 * n.Y * n.B ∧
      (flatA2 n : ℚ) / 2 = (n.A : ℚ) + 1 / 2 * n.Y) ∧
    exGrid4.grid 4 = EMPTY ∧
    (step exGrid4 exParams4).grid 4 = SPECIES_A ∧
    2 * exParams4.birth ≤ (effA2 (getNeighborCounts exGrid4 1 1) : Int) ∧
    (flatA2 (getNeighborCounts exGrid4 1 1) : Int) < 2 * exParams4.birth := by
  refine ⟨?_, by decide, by decide, by decide, by decide⟩
  intro n
  refine ⟨?_, ?_, ?_⟩
  · unfold effA2
    push_cast
    ring
  · unfold effB2
    push_cast
    ring
  · unfold flatA2
    push_cast
    ring

theorem make_error_of_invalid (columns rows cellSize : Int)
    (h : columns * rows < 0 ∨ 2 ^ 53 - 1 < columns * rows) :
    DarwinJS.GridModelJS.make columns rows cellSize =
      Except.error "RangeError: invalid typed array length" := by
  simp only [DarwinJS.GridModelJS.make, DarwinJS.newUint8Array]
  rw [if_pos h]
  rfl

theorem make_eq_of_valid (columns rows cellSize : Int)
    (h0 : 0 ≤ columns * rows) (h1 : columns * rows ≤ 2 ^ 53 - 1) :
    DarwinJS.GridModelJS.make columns rows cellSize =
      Except.ok
        ⟨columns, rows, cellSize,
          List.replicate (columns * rows).toNat 0,
          List.replicate (columns * rows).toNat 0,
          List.replicate (columns * rows).toNat 0,
          List.replicate (columns * rows).toNat 0⟩ := by
  simp only [DarwinJS.GridModelJS.make, DarwinJS.newUint8Array]
  rw [if_neg (by omega)]
  rfl

theorem resize_error_of_invalid (m : DarwinJS.GridModelJS) (nc nr cs : Int)
    (keep : Bool)
    (h : DarwinJS.toInt32 nc * DarwinJS.toInt32 nr < 0 ∨
      2 ^ 53 - 1 < DarwinJS.toInt32 nc * DarwinJS.toInt32 nr) :
    m.resize nc nr cs keep =
      Except.error "RangeError: invalid typed array length" := by
  simp only [DarwinJS.GridModelJS.resize]
  rw [make_error_of_invalid _ _ _ h]
  rfl

theorem resize_isOk_of_valid (m : DarwinJS.GridModelJS) (nc nr cs : Int)
    (keep : Bool) (h0 : 0 ≤ DarwinJS.toInt32 nc * DarwinJS.toInt32 nr)
    (h1 : DarwinJS.toInt32 nc * DarwinJS.toInt32 nr ≤ 2 ^ 53 - 1) :
    (m.resize nc nr cs keep).isOk = true := by
  simp only [DarwinJS.GridModelJS.resize]
  rw [make_eq_of_valid _ _ _ h0 h1]
  have hbind : ∀ (V : DarwinJS.GridModelJS)
      (F : DarwinJS.GridModelJS → Except String DarwinJS.GridModelJS),
      (Except.ok V >>= F) = F V := fun V F => rfl
  rw [hbind]
  simp only []
  split
  · rfl
  · rfl

/-- C6 (amended): neither grid creation nor resize validates dimensions —
there is no InvalidDimension / ConfigurationError.  Allocation fails
(with the typed-array RangeError raised by ToIndex) exactly when the
buffer length `columns * rows` is negative or exceeds `2^53 - 1`; any
other product — including a zero dimension, or two small negative
dimensions whose product is nonnegative — silently produces a grid, and
retrying with positive dimensions of in-range product always succeeds. -/
theorem c6_dimension_validation_amended :
    (∀ columns rows cellSize : Int,
      columns * rows < 0 ∨ 2 ^ 53 - 1 < columns * rows →
      DarwinJS.GridModelJS.make columns rows cellSize =
        Except.error "RangeError: invalid typed array length") ∧
    (∀ columns rows cellSize : Int, 0 ≤ columns * rows →
      columns * rows ≤ 2 ^ 53 - 1 →
      (DarwinJS.GridModelJS.make columns rows cellSize).isOk = true) ∧
    (∀ columns rows cellSize : Int, 0 < columns → 0 < rows →
      columns * rows ≤ 2 ^ 53 - 1 →
      (DarwinJS.GridModelJS.make columns rows cellSize).isOk = true) ∧
    (∀ (m : DarwinJS.GridModelJS) (nc nr cs : Int) (keep : Bool),
      DarwinJS.toInt32 nc * DarwinJS.toInt32 nr < 0 ∨
        2 ^ 53 - 1 < DarwinJS.toInt32 nc * DarwinJS.toInt32 nr →
      m.resize nc nr cs keep =
        Except.error "RangeError: invalid typed array length") ∧
    (∀ (m : DarwinJS.GridModelJS) (nc nr cs : Int) (keep : Bool),
      0 ≤ DarwinJS.toInt32 nc * DarwinJS.toInt32 nr →
      DarwinJS.toInt32 nc * DarwinJS.toInt32 nr ≤ 2 ^ 53 - 1 →
      (m.resize nc nr cs keep).isOk = true) := by
  refine ⟨make_error_of_invalid, ?_, ?_, resize_error_of_invalid,
    resize_isOk_of_valid⟩
  · intro columns rows cellSize h0 h1
    rw [make_eq_of_valid columns rows cellSize h0 h1]
    rfl
  · intro columns rows cellSize hc hr h1
    rw [make_eq_of_valid columns rows cellSize (by positivity) h1]
    rfl

theorem c6_dimension_validation_amended_witness :
    (((-2 : Int) * 3 < 0 ∨ (2 : Int) ^ 53 - 1 < (-2 : Int) * 3) ∧
      DarwinJS.GridModelJS.make (-2) 3 8 =
        Except.error "RangeError: invalid typed array length") ∧
    (((-(2 ^ 27) : Int) * (-(2 ^ 27)) < 0 ∨
        (2 : Int) ^ 53 - 1 < (-(2 ^ 27) : Int) * (-(2 ^ 27))) ∧
      DarwinJS.GridModelJS.make (-(2 ^ 27)) (-(2 ^ 27)) 8 =
        Except.error "RangeError: invalid typed array length") ∧
    ((0 : Int) ≤ (-2 : Int) * (-3) ∧ (-2 : Int) * (-3) ≤ 2 ^ 53 - 1 ∧
      (DarwinJS.GridModelJS.make (-2) (-3) 8).isOk = true) ∧
    ((0 : Int) < 20 ∧ (0 : Int) < 10 ∧ (20 : Int) * 10 ≤ 2 ^ 53 - 1 ∧
      (DarwinJS.GridModelJS.make 20 10 8).isOk = true) :=
  ⟨⟨by decide, c6_dimension_validation_amended.1 (-2) 3 8 (by decide)⟩,
    ⟨by decide,
      c6_dimension_validation_amended.1 (-(2 ^ 27)) (-(2 ^ 27)) 8 (by decide)⟩,
    ⟨by decide, by decide,
      c6_dimension_validation_amended.2.1 (-2) (-3) 8 (by decide) (by decide)⟩,
    ⟨by decide, by decide, by decide,
      c6_dimension_validation_amended.2.2.1 20 10 8 (by decide) (by decide)
        (by decide)⟩⟩

theorem wrap_toNat_lt (v : Int) (m : Nat) (hm : 0 < m) :
    (wrap v (m : Int)).toNat < m := by
  have h := wrap_eq_emod v (m : Int) (by omega)
  have h1 : 0 ≤ wrap v (m : Int) := by
    rw [h]
    exact Int.emod_nonneg v (by omega)
  have h2 : wrap v (m : Int) < (m : Int) := by
    rw [h]
    exact Int.emod_lt_of_pos v (by omega)
  omega

/-- The neighbor scan reads the current buffer only at in-range flat
indices (the wrapped coordinates are in range), so two grids with equal
dimensions whose current buffers agree on all in-range indices yield the
same counts everywhere. -/
theorem getNeighborCounts_agree (g1 g2 : Grid)
    (hc : g2.columns = g1.columns) (hr : g2.rows = g1.rows)
    (hg : ∀ i, i < g1.columns * g1.rows → g2.grid i = g1.grid i)
    (hc0 : 0 < g1.columns) (hr0 : 0 < g1.rows) (x y : Nat) :
    getNeighborCounts g2 x y = getNeighborCounts g1 x y := by
  unfold getNeighborCounts
  rw [hc, hr]
  apply List.foldl_ext
  intro acc d _
  simp only []
  congr 1
  apply hg
  have hnx := wrap_toNat_lt ((x : Int) + d.1) g1.columns hc0
  have hny := wrap_toNat_lt ((y : Int) + d.2) g1.rows hr0
  calc (wrap ((y : Int) + d.2) (g1.rows : Int)).toNat * g1.columns +
        (wrap ((x : Int) + d.1) (g1.columns : Int)).toNat
      < (wrap ((y : Int) + d.2) (g1.rows : Int)).toNat * g1.columns +
          g1.columns := Nat.add_lt_add_left hnx _
    _ = ((wrap ((y : Int) + d.2) (g1.rows : Int)).toNat + 1) * g1.columns := by
        ring
    _ ≤ g1.rows * g1.columns := Nat.mul_le_mul_right _ hny
    _ = g1.columns * g1.rows := Nat.mul_comm _ _

/-- C9: `step()` is deterministic in exactly the inputs the claim lists:
two runs whose dimensions, state buffers and both age arrays agree (on
every in-range cell) under equal parameter snapshots produce bit-identical
post-step state buffers and age arrays, regardless of the contents of the
scratch `next` buffer. -/
theorem c9_step_deterministic (g1 g2 : Grid) (p1 p2 : Params)
    (hc : g1.columns = g2.columns) (hr : g1.rows = g2.rows) (hp : p1 = p2)
    (hgrid : ∀ i, i < g1.columns * g1.rows → g1.grid i = g2.grid i)
    (hga : ∀ i, i < g1.columns * g1.rows → g1.gAge i = g2.gAge i)
    (hya : ∀ i, i < g1.columns * g1.rows → g1.yAge i = g2.yAge i) :
    (step g1 p1).columns = (step g2 p2).columns ∧
    (step g1 p1).rows = (step g2 p2).rows ∧
    ∀ i, i < g1.columns * g1.rows →
      (step g1 p1).grid i = (step g2 p2).grid i ∧
      (step g1 p1).gAge i = (step g2 p2).gAge i ∧
      (step g1 p1).yAge i = (step g2 p2).yAge i := by
  subst hp
  refine ⟨?_, ?_, ?_⟩
  · rw [step_columns, step_columns, hc]
  · rw [step_rows, step_rows, hr]
  · intro i hi
    have hi2 : i < g2.columns * g2.rows := by
      rw [← hc, ← hr]
      exact hi
    have hc0 : 0 < g1.columns := by
      rcases Nat.eq_zero_or_pos g1.columns with h | h
      · rw [h, Nat.zero_mul] at hi
        exact absurd hi (Nat.not_lt_zero i)
      · exact h
    have hr0 : 0 < g1.rows := by
      rcases Nat.eq_zero_or_pos g1.rows with h | h
      · rw [h, Nat.mul_zero] at hi
        exact absurd hi (Nat.not_lt_zero i)
      · exact h
    obtain ⟨a1, a2, a3⟩ := step_cell_flat g1 p1 i hi
    obtain ⟨b1, b2, b3⟩ := step_cell_flat g2 p1 i hi2
    rw [← hc] at b1 b2 b3
    rw [← hgrid i hi, ← hga i hi, ← hya i hi] at b1 b2 b3
    have hcnt : getNeighborCounts g2 (i % g1.columns) (i / g1.columns) =
        getNeighborCounts g1 (i % g1.columns) (i / g1.columns) :=
      getNeighborCounts_agree g1 g2 hc.symm hr.symm
        (fun j hj => (hgrid j hj).symm) hc0 hr0 _ _
    rw [hcnt] at b1 b2 b3
    exact ⟨a1.trans b1.symm, a2.trans b2.symm, a3.trans b3.symm⟩

theorem c9_step_deterministic_witness :
    (exGrid1.columns = exGrid9.columns ∧ exGrid1.rows = exGrid9.rows ∧
      (∀ i, i < exGrid1.columns * exGrid1.rows →
        exGrid1.grid i = exGrid9.grid i) ∧
      (∀ i, i < exGrid1.columns * exGrid1.rows →
        exGrid1.gAge i = exGrid9.gAge i) ∧
      (∀ i, i < exGrid1.columns * exGrid1.rows →
        exGrid1.yAge i = exGrid9.yAge i) ∧
      exGrid1.next 0 ≠ exGrid9.next 0) ∧
    ((step exGrid1 exParams1).columns = (step exGrid9 exParams1).columns ∧
      (step exGrid1 exParams1).rows = (step exGrid9 exParams1).rows ∧
      ∀ i, i < exGrid1.columns * exGrid1.rows →
        (step exGrid1 exParams1).grid i = (step exGrid9 exParams1).grid i ∧
        (step exGrid1 exParams1).gAge i = (step exGrid9 exParams1).gAge i ∧
        (step exGrid1 exParams1).yAge i = (step exGrid9 exParams1).yAge i) :=
  ⟨⟨rfl, rfl, fun _ _ => rfl, fun _ _ => rfl, fun _ _ => rfl, by decide⟩,
    c9_step_deterministic exGrid1 exGrid9 exParams1 exParams1 rfl rfl rfl
      (fun _ _ => rfl) (fun _ _ => rfl) (fun _ _ => rfl)⟩
